import Mathlib

/-!
Shallow embedding of the locally authored logic of the multi-agent demo
program (a single Python source file).  The embedded pieces are:

* the five conversation roles, identified by their position in the agents
  list built in `main` (`agents[0]` = Admin, `agents[1]` = Planner,
  `agents[2]` = Engineer, `agents[3]` = Reviewer, `agents[4]` = Executor);
* `custom_speaker_selection_func`, the next-speaker dispatcher;
* `create_llm_config`, the environment-driven provider selector;
* `get_file_content`, the file-reading helper used by the task composer.

Python's `in` operator on strings (substring containment) is embedded as
`strContains`; `str.lower` is embedded as `asciiLower` (the values the
program compares against are pure ASCII); `os.getenv` results are embedded
as `Option String` (`none` = variable unset).
-/

namespace MultiagentDemo

/-- The five fixed participants, in the order of the `agents` list. -/
inductive RoleId where
  | Admin
  | Planner
  | Engineer
  | Reviewer
  | Executor
deriving DecidableEq, Repr

/-- One transcript entry: speaker identity plus text body. -/
structure Message where
  speaker : RoleId
  content : String
deriving DecidableEq, Repr

/-- List-of-characters version of "n is a leading segment of h". -/
def isPrefixList : List Char → List Char → Bool
  | [], _ => true
  | _ :: _, [] => false
  | a :: as, b :: bs => a = b && isPrefixList as bs

/-- Does `n` occur as a contiguous run inside `h`?  Helper for `strContains`. -/
def containsAux (n : List Char) : List Char → Bool
  | [] => isPrefixList n []
  | c :: t => isPrefixList n (c :: t) || containsAux n t

/-- Embedding of the Python expression `needle in haystack` on strings. -/
def strContains (haystack needle : String) : Bool :=
  containsAux needle.data haystack.data

/-- The `speaker_map` dict of the source, as an association list; Python
dicts iterate in insertion order, so the list order is the check order. -/
def speaker_map : List (String × RoleId) :=
  [("Dear user", RoleId.Admin),
   ("Dear planner", RoleId.Planner),
   ("Dear engineer", RoleId.Engineer),
   ("Dear reviewer", RoleId.Reviewer),
   ("Dear executor", RoleId.Executor)]

/-- The text of `messages[-1]`; the dispatcher only evaluates this after
checking `len(messages) > 1`, so the fallback is never reached there. -/
def last_message (messages : List Message) : String :=
  (messages.getLastD ⟨RoleId.Admin, ""⟩).content

/-- Embedding of `custom_speaker_selection_func`: the `for key, agent in
speaker_map.items()` loop is the sequential first-match search `find?` over
`speaker_map`; agent objects are identified with their `RoleId`. -/
def custom_speaker_selection_func (last_speaker : RoleId)
    (messages : List Message) : RoleId :=
  if messages.length ≤ 1 then
    RoleId.Planner
  else
    let lm := last_message messages
    match speaker_map.find? (fun p => strContains lm p.1) with
    | some p => p.2
    | none =>
      if last_speaker = RoleId.Executor then
        if strContains lm "exitcode: 1" then RoleId.Engineer else RoleId.Planner
      else
        RoleId.Planner

/-- True when the text contains at least one of the five sentinels. -/
def hasSentinel (t : String) : Bool :=
  speaker_map.any (fun p => strContains t p.1)

/-- The environment variables the program reads for provider selection;
`none` embeds an unset variable, `some s` a variable set to `s` (possibly
the empty string, which Python treats as falsy). -/
structure Env where
  anthropic_api_key : Option String
  groq_api_key : Option String
  api_type : Option String
deriving DecidableEq, Repr

/-- ASCII version of one `str.lower` step. -/
def asciiLowerChar (c : Char) : Char :=
  if 'A' ≤ c ∧ c ≤ 'Z' then Char.ofNat (c.toNat + 32) else c

/-- Embedding of Python `str.lower` (the program only compares against the
ASCII literals "anthropic" and "groq"). -/
def asciiLower (s : String) : String :=
  ⟨s.data.map asciiLowerChar⟩

def ANTHROPIC_MODEL : String := "claude-3-5-sonnet-20240620"

def GROQ_MODEL : String := "mixtral-8x7b-32768"

/-- `API_TYPE = os.getenv("API_TYPE", "anthropic").lower()`. -/
def API_TYPE (env : Env) : String :=
  asciiLower (env.api_type.getD "anthropic")

/-- One element of the `config_list` built by `create_llm_config`. -/
structure ProviderEntry where
  api_type : String
  model : String
  api_key : String
deriving DecidableEq, Repr

/-- The dict returned by `create_llm_config` (its `cache_seed` slot is the
constant `None` in the source, so it is omitted here). -/
structure LLMConfig where
  config_list : List ProviderEntry
deriving DecidableEq, Repr

/-- The configuration errors `create_llm_config` can raise (`ValueError`s
in the source, distinguished here by constructor). -/
inductive ConfigError where
  | anthropicKeyNotSet
  | groqKeyNotSet
  | invalidApiType (t : String)
deriving DecidableEq, Repr

/-- Python truthiness of an optional environment string: `not KEY` is true
when the variable is unset (`None`) or set to the empty string. -/
def pyFalsy : Option String → Bool
  | none => true
  | some s => s = ""

/-- Embedding of `create_llm_config`. -/
def create_llm_config (env : Env) : Except ConfigError LLMConfig :=
  if API_TYPE env = "anthropic" then
    if pyFalsy env.anthropic_api_key then
      Except.error ConfigError.anthropicKeyNotSet
    else
      Except.ok ⟨[⟨"anthropic", ANTHROPIC_MODEL, env.anthropic_api_key.getD ""⟩]⟩
  else if API_TYPE env = "groq" then
    if pyFalsy env.groq_api_key then
      Except.error ConfigError.groqKeyNotSet
    else
      Except.ok ⟨[⟨"groq", GROQ_MODEL, env.groq_api_key.getD ""⟩]⟩
  else
    Except.error (ConfigError.invalidApiType (API_TYPE env))

/-- Did the selector succeed? -/
def exceptIsOk {ε α : Type} : Except ε α → Bool
  | Except.ok _ => true
  | Except.error _ => false

/-- Embedding of `get_file_content`: the filesystem is an oracle `fs`
mapping a path to either the full file content or an I/O error; the
source's `except IOError` block logs and then re-raises the same
exception, so the error value is passed through unchanged. -/
def get_file_content {ε : Type} (fs : String → Except ε String)
    (file_path : String) : Except ε String :=
  match fs file_path with
  | Except.ok content => Except.ok content
  | Except.error e => Except.error e

/-- C2: for every transcript containing at most one message, the dispatcher
returns Planner, regardless of the last speaker and of the message content. -/
theorem dispatcher_bootstrap_planner (last_speaker : RoleId)
    (messages : List Message) (h : messages.length ≤ 1) :
    custom_speaker_selection_func last_speaker messages = RoleId.Planner := by
  simp [custom_speaker_selection_func, h]

/-- Witness for C2: the singleton opening transcript routes to Planner. -/
theorem dispatcher_bootstrap_planner_witness :
    ([(⟨RoleId.Admin, "task description"⟩ : Message)].length ≤ 1) ∧
      custom_speaker_selection_func RoleId.Admin
        [⟨RoleId.Admin, "task description"⟩] = RoleId.Planner :=
  ⟨by decide, dispatcher_bootstrap_planner RoleId.Admin _ (by decide)⟩

/-- C5: the dispatcher is total — for every last speaker and transcript it
returns one of the five valid roles. -/
theorem dispatcher_total (last_speaker : RoleId) (messages : List Message) :
    custom_speaker_selection_func last_speaker messages = RoleId.Admin ∨
    custom_speaker_selection_func last_speaker messages = RoleId.Planner ∨
    custom_speaker_selection_func last_speaker messages = RoleId.Engineer ∨
    custom_speaker_selection_func last_speaker messages = RoleId.Reviewer ∨
    custom_speaker_selection_func last_speaker messages = RoleId.Executor := by
  cases h : custom_speaker_selection_func last_speaker messages <;> simp

/-- C6: the dispatcher is deterministic — two invocations with the same
last speaker and the same transcript return the same role (the embedding
reads no state beyond its two arguments by construction). -/
theorem dispatcher_deterministic (s₁ s₂ : RoleId) (t₁ t₂ : List Message)
    (hs : s₁ = s₂) (ht : t₁ = t₂) :
    custom_speaker_selection_func s₁ t₁ = custom_speaker_selection_func s₂ t₂ := by
  subst hs
  subst ht
  rfl

/-- Witness for C6 at a concrete repeated invocation. -/
theorem dispatcher_deterministic_witness :
    custom_speaker_selection_func RoleId.Executor [⟨RoleId.Executor, "exitcode: 1"⟩] =
      custom_speaker_selection_func RoleId.Executor [⟨RoleId.Executor, "exitcode: 1"⟩] :=
  dispatcher_deterministic RoleId.Executor RoleId.Executor _ _ rfl rfl

/-- C8: the file-reading operation returns exactly what the underlying
filesystem read returns — the full content on success, and on failure the
same I/O error, propagated unchanged. -/
theorem get_file_content_propagates {ε : Type} (fs : String → Except ε String)
    (file_path : String) :
    get_file_content fs file_path = fs file_path := by
  unfold get_file_content
  cases fs file_path <;> rfl

/-- C1: for transcripts with more than one message the dispatcher checks
the last message for the sentinels in the fixed priority order
"Dear user" → Admin, "Dear planner" → Planner, "Dear engineer" → Engineer,
"Dear reviewer" → Reviewer, "Dear executor" → Executor (case-sensitive
substring match) and returns the role of the first sentinel found; when
several sentinels co-occur the earlier-priority one wins, and in particular
"Dear reviewer" with no earlier-priority sentinel yields Reviewer. -/
theorem dispatcher_sentinel_priority (last_speaker : RoleId)
    (messages : List Message) (h : 1 < messages.length) :
    (strContains (last_message messages) "Dear user" = true →
      custom_speaker_selection_func last_speaker messages = RoleId.Admin) ∧
    (strContains (last_message messages) "Dear user" = false →
     strContains (last_message messages) "Dear planner" = true →
      custom_speaker_selection_func last_speaker messages = RoleId.Planner) ∧
    (strContains (last_message messages) "Dear user" = false →
     strContains (last_message messages) "Dear planner" = false →
     strContains (last_message messages) "Dear engineer" = true →
      custom_speaker_selection_func last_speaker messages = RoleId.Engineer) ∧
    (strContains (last_message messages) "Dear user" = false →
     strContains (last_message messages) "Dear planner" = false →
     strContains (last_message messages) "Dear engineer" = false →
     strContains (last_message messages) "Dear reviewer" = true →
      custom_speaker_selection_func last_speaker messages = RoleId.Reviewer) ∧
    (strContains (last_message messages) "Dear user" = false →
     strContains (last_message messages) "Dear planner" = false →
     strContains (last_message messages) "Dear engineer" = false →
     strContains (last_message messages) "Dear reviewer" = false →
     strContains (last_message messages) "Dear executor" = true →
      custom_speaker_selection_func last_speaker messages = RoleId.Executor) := by
  have hn : ¬ messages.length ≤ 1 := by omega
  refine ⟨?_, ?_, ?_, ?_, ?_⟩
  · intro h1
    simp [custom_speaker_selection_func, hn, speaker_map, List.find?, h1]
  · intro h1 h2
    simp [custom_speaker_selection_func, hn, speaker_map, List.find?, h1, h2]
  · intro h1 h2 h3
    simp [custom_speaker_selection_func, hn, speaker_map, List.find?, h1, h2, h3]
  · intro h1 h2 h3 h4
    simp [custom_speaker_selection_func, hn, speaker_map, List.find?, h1, h2, h3, h4]
  · intro h1 h2 h3 h4 h5
    simp [custom_speaker_selection_func, hn, speaker_map, List.find?,
      h1, h2, h3, h4, h5]

/-- Witness for C1: a two-message transcript ending in an Engineer message
containing "Dear reviewer" (and no earlier-priority sentinel) routes to
Reviewer. -/
theorem dispatcher_sentinel_priority_witness :
    1 < ([⟨RoleId.Admin, "task"⟩,
          ⟨RoleId.Engineer, "Dear reviewer, please check"⟩] : List Message).length ∧
    custom_speaker_selection_func RoleId.Engineer
      [⟨RoleId.Admin, "task"⟩, ⟨RoleId.Engineer, "Dear reviewer, please check"⟩] =
        RoleId.Reviewer :=
  ⟨by decide,
   (dispatcher_sentinel_priority RoleId.Engineer
      [⟨RoleId.Admin, "task"⟩, ⟨RoleId.Engineer, "Dear reviewer, please check"⟩]
      (by decide)).2.2.2.1 (by decide) (by decide) (by decide) (by decide)⟩

/-- C3: on transcripts with more than one message whose last message has no
sentinel, with last speaker Executor the dispatcher returns Engineer when
the last message contains "exitcode: 1" and Planner otherwise. -/
theorem dispatcher_executor_branch (messages : List Message)
    (h : 1 < messages.length)
    (hns : hasSentinel (last_message messages) = false) :
    (strContains (last_message messages) "exitcode: 1" = true →
      custom_speaker_selection_func RoleId.Executor messages = RoleId.Engineer) ∧
    (strContains (last_message messages) "exitcode: 1" = false →
      custom_speaker_selection_func RoleId.Executor messages = RoleId.Planner) := by
  have hn : ¬ messages.length ≤ 1 := by omega
  simp [hasSentinel, speaker_map] at hns
  obtain ⟨h1, h2, h3, h4, h5⟩ := hns
  constructor <;> intro hx <;>
    simp [custom_speaker_selection_func, hn, speaker_map, List.find?,
      h1, h2, h3, h4, h5, hx]

/-- Witness for C3: an Executor failure report routes back to Engineer. -/
theorem dispatcher_executor_branch_witness :
    custom_speaker_selection_func RoleId.Executor
      [⟨RoleId.Admin, "task"⟩, ⟨RoleId.Executor, "exitcode: 1, error: syntax"⟩] =
        RoleId.Engineer :=
  (dispatcher_executor_branch
      [⟨RoleId.Admin, "task"⟩, ⟨RoleId.Executor, "exitcode: 1, error: syntax"⟩]
      (by decide) (by decide)).1 (by decide)

/-- C4: on transcripts with more than one message whose last message has no
sentinel, any last speaker other than Executor routes to Planner. -/
theorem dispatcher_default_planner (last_speaker : RoleId)
    (messages : List Message) (h : 1 < messages.length)
    (hex : last_speaker ≠ RoleId.Executor)
    (hns : hasSentinel (last_message messages) = false) :
    custom_speaker_selection_func last_speaker messages = RoleId.Planner := by
  have hn : ¬ messages.length ≤ 1 := by omega
  simp [hasSentinel, speaker_map] at hns
  obtain ⟨h1, h2, h3, h4, h5⟩ := hns
  simp [custom_speaker_selection_func, hn, speaker_map, List.find?,
    h1, h2, h3, h4, h5, hex]

/-- Witness for C4: a sentinel-free Reviewer message routes to Planner. -/
theorem dispatcher_default_planner_witness :
    custom_speaker_selection_func RoleId.Reviewer
      [⟨RoleId.Admin, "task"⟩, ⟨RoleId.Reviewer, "code: APPROVED"⟩] =
        RoleId.Planner :=
  dispatcher_default_planner RoleId.Reviewer
    [⟨RoleId.Admin, "task"⟩, ⟨RoleId.Reviewer, "code: APPROVED"⟩]
    (by decide) (by decide) (by decide)

/-- C9: the dispatcher reads the last-speaker argument only to distinguish
Executor — two non-Executor last speakers always yield the same role, and
when the transcript has at most one message or the last message contains a
sentinel, all last speakers yield the same role. -/
theorem dispatcher_speaker_independence (messages : List Message)
    (s₁ s₂ : RoleId) :
    (s₁ ≠ RoleId.Executor → s₂ ≠ RoleId.Executor →
      custom_speaker_selection_func s₁ messages =
        custom_speaker_selection_func s₂ messages) ∧
    (messages.length ≤ 1 ∨ hasSentinel (last_message messages) = true →
      custom_speaker_selection_func s₁ messages =
        custom_speaker_selection_func s₂ messages) := by
  constructor
  · intro h1 h2
    by_cases hc : messages.length ≤ 1
    · simp [custom_speaker_selection_func, hc]
    · cases hf : speaker_map.find? (fun p => strContains (last_message messages) p.1) <;>
        simp [custom_speaker_selection_func, hc, hf, h1, h2]
  · intro hor
    rcases hor with hle | hsent
    · simp [custom_speaker_selection_func, hle]
    · by_cases hc : messages.length ≤ 1
      · simp [custom_speaker_selection_func, hc]
      · have hsome :
            (speaker_map.find? (fun p => strContains (last_message messages) p.1)).isSome := by
          rw [List.find?_isSome]
          simpa [hasSentinel, List.any_eq_true] using hsent
        obtain ⟨p, hp⟩ := Option.isSome_iff_exists.mp hsome
        simp [custom_speaker_selection_func, hc, hp]

/-- Witness for C9: Admin and Reviewer as last speakers give the same
result on a sentinel-free transcript. -/
theorem dispatcher_speaker_independence_witness :
    custom_speaker_selection_func RoleId.Admin
      [⟨RoleId.Admin, "task"⟩, ⟨RoleId.Planner, "here is the plan"⟩] =
    custom_speaker_selection_func RoleId.Reviewer
      [⟨RoleId.Admin, "task"⟩, ⟨RoleId.Planner, "here is the plan"⟩] :=
  (dispatcher_speaker_independence
      [⟨RoleId.Admin, "task"⟩, ⟨RoleId.Planner, "here is the plan"⟩]
      RoleId.Admin RoleId.Reviewer).1 (by decide) (by decide)

/-- C7 counterexample: with provider anthropic and the Anthropic key
present but set to the empty string, the selector still fails — so failure
is not exactly characterised by "key absent or provider unsupported". -/
theorem create_llm_config_fails_on_present_key :
    (Env.mk (some "") none (some "anthropic")).anthropic_api_key ≠ none ∧
    API_TYPE (Env.mk (some "") none (some "anthropic")) = "anthropic" ∧
    create_llm_config (Env.mk (some "") none (some "anthropic")) =
      Except.error ConfigError.anthropicKeyNotSet :=
  ⟨by simp, by decide, by rfl⟩

/-- C7 (amended): the selector fails with a configuration error, and
otherwise returns a provider configuration, exactly when the selected
provider's key is unset or empty, or the provider name is not in the
supported set {anthropic, groq}; in particular it fails with anthropic
selected and the Anthropic key unset, with groq selected and the Groq key
unset, and with any unsupported provider name. -/
theorem create_llm_config_error_characterisation (env : Env) :
    exceptIsOk (create_llm_config env) = false ↔
      (API_TYPE env = "anthropic" ∧ pyFalsy env.anthropic_api_key = true) ∨
      (API_TYPE env = "groq" ∧ pyFalsy env.groq_api_key = true) ∨
      (API_TYPE env ≠ "anthropic" ∧ API_TYPE env ≠ "groq") := by
  unfold create_llm_config
  by_cases h1 : API_TYPE env = "anthropic"
  · by_cases h2 : pyFalsy env.anthropic_api_key <;> simp [h1, h2, exceptIsOk]
  · by_cases h3 : API_TYPE env = "groq"
    · by_cases h4 : pyFalsy env.groq_api_key <;> simp [h1, h3, h4, exceptIsOk]
    · simp [h1, h3, exceptIsOk]

/-- C10: the provider-name value is lowercased before comparison, so every
casing of "anthropic" or "groq" selects the corresponding provider, and an
unset provider-name variable defaults to anthropic. -/
theorem api_type_case_insensitive_default (env : Env) :
    (∀ s, env.api_type = some s → asciiLower s = "anthropic" →
      API_TYPE env = "anthropic") ∧
    (∀ s, env.api_type = some s → asciiLower s = "groq" →
      API_TYPE env = "groq") ∧
    (env.api_type = none → API_TYPE env = "anthropic") ∧
    (API_TYPE env = "anthropic" → pyFalsy env.anthropic_api_key = false →
      create_llm_config env = Except.ok
        ⟨[⟨"anthropic", ANTHROPIC_MODEL, env.anthropic_api_key.getD ""⟩]⟩) ∧
    (API_TYPE env = "groq" → pyFalsy env.groq_api_key = false →
      create_llm_config env = Except.ok
        ⟨[⟨"groq", GROQ_MODEL, env.groq_api_key.getD ""⟩]⟩) := by
  refine ⟨?_, ?_, ?_, ?_, ?_⟩
  · intro s hs hlow
    simp [API_TYPE, hs, hlow]
  · intro s hs hlow
    simp [API_TYPE, hs, hlow]
  · intro hnone
    simp [API_TYPE, hnone]
    decide
  · intro ht hk
    simp [create_llm_config, ht, hk]
  · intro ht hk
    have hne : API_TYPE env ≠ "anthropic" := by
      rw [ht]
      decide
    simp [create_llm_config, ht, hk, hne]

/-- Witness for C10: upper-cased and mixed-cased provider names select the
corresponding provider, the unset variable defaults to anthropic, and the
selected anthropic configuration is built from the key. -/
theorem api_type_case_insensitive_default_witness :
    API_TYPE (Env.mk (some "k") none (some "ANTHROPIC")) = "anthropic" ∧
    API_TYPE (Env.mk none (some "g") (some "Groq")) = "groq" ∧
    API_TYPE (Env.mk (some "k") none none) = "anthropic" ∧
    create_llm_config (Env.mk (some "k") none (some "ANTHROPIC")) =
      Except.ok ⟨[⟨"anthropic", ANTHROPIC_MODEL, "k"⟩]⟩ :=
  ⟨(api_type_case_insensitive_default (Env.mk (some "k") none (some "ANTHROPIC"))).1
      "ANTHROPIC" rfl (by decide),
   (api_type_case_insensitive_default (Env.mk none (some "g") (some "Groq"))).2.1
      "Groq" rfl (by decide),
   (api_type_case_insensitive_default (Env.mk (some "k") none none)).2.2.1 rfl,
   (api_type_case_insensitive_default (Env.mk (some "k") none (some "ANTHROPIC"))).2.2.2.1
      (by decide) (by decide)⟩

end MultiagentDemo
